import Mathlib

/-!
Shallow embedding of the SolanaGuardian trust-scoring bot.

The scoring core lives in `analyzer.py` (`TrustworthinessAnalyzer`),
`main.py` (`RugGuardBot._calculate_final_score`, `_generate_response`),
`trust_check.py` (`TrustListChecker.check_trust_list`),
`trigger_listener.py` (`TriggerListener.check_for_triggers`) and
`reply_bot.py` (`ReplyBot._truncate_message`, `post_reply`).

Modelling conventions: Python strings are modelled by `String` (a list of
code points, matching Python's `len`/slicing semantics); Python numbers by
`Nat` for the API-provided counts and by `ℚ` for the scores, which the code
computes with exact division guarded against zero denominators; `None` by
`Option.none`.  Account age in days is taken as an input (`now - created_at`
is external real time; the spec fixes it as a non-negative whole-day count).
-/

namespace SolanaGuardian

set_option maxRecDepth 8000

/-- Python `str.lower()` restricted to its ASCII action (`Char.toLower`);
every keyword and trigger literal in the repository is ASCII. -/
def pyLower (s : String) : String := String.mk (s.data.map Char.toLower)

/-- Does `needle` occur at the head of `hay`? (helper for substring tests) -/
def listStartsWith : List Char → List Char → Bool
  | [], _ => true
  | _ :: _, [] => false
  | n :: ns, h :: hs => (n == h) && listStartsWith ns hs

/-- Does `needle` occur contiguously anywhere in `hay`?  This is Python's
`needle in hay` on strings, applied to their character lists. -/
def listContainsSub (needle : List Char) : List Char → Bool
  | [] => listStartsWith needle []
  | h :: hs => listStartsWith needle (h :: hs) || listContainsSub needle hs

/-- Python's substring membership `needle in hay` on strings. -/
def pyIn (needle hay : String) : Bool := listContainsSub needle.data hay.data

/-- One recent post of the analyzed account (`RecentPost` of the data model;
the fields used by `analyzer.py` are the text and the public metrics). -/
structure RecentPost where
  text : String
  like_count : Nat
  retweet_count : Nat
  reply_count : Nat
  deriving DecidableEq

/-- The per-analysis account snapshot (`AccountSnapshot` of the data model).
`account_age_days` is the whole-day age computed in
`_analyze_account_age` from `created_at`. -/
structure AccountSnapshot where
  username : String
  account_age_days : Nat
  followers_count : Nat
  following_count : Nat
  bio : String
  verified : Bool
  deriving DecidableEq

/-- Age step score of `TrustworthinessAnalyzer._analyze_account_age`
(`analyzer.py` lines 125-153). -/
def account_age_score (age_days : Nat) : ℚ :=
  if 365 * 2 ≤ age_days then 100
  else if 365 ≤ age_days then 80
  else if 180 ≤ age_days then 60
  else if 90 ≤ age_days then 40
  else if 30 ≤ age_days then 20
  else 10

/-- The ratio computed by `_analyze_follower_ratio` (`analyzer.py` lines
155-195): `followers / following`, with the zero-following edge case giving
`followers` when positive and `1` otherwise. -/
def follower_ratio (followers following : Nat) : ℚ :=
  if following = 0 then (if 0 < followers then (followers : ℚ) else 1)
  else (followers : ℚ) / (following : ℚ)

/-- Step score of `_analyze_follower_ratio` over the ratio. -/
def follower_ratio_score (followers following : Nat) : ℚ :=
  if 10 ≤ follower_ratio followers following then 100
  else if 5 ≤ follower_ratio followers following then 80
  else if 2 ≤ follower_ratio followers following then 60
  else if 1 ≤ follower_ratio followers following then 40
  else if (0.5 : ℚ) ≤ follower_ratio followers following then 20
  else 10

/-- `self.suspicious_keywords` of `TrustworthinessAnalyzer.__init__`. -/
def suspicious_keywords : List String :=
  ["guaranteed", "risk-free", "1000x", "moon", "lambo",
   "diamond hands", "to the moon", "financial advice",
   "not financial advice", "nfa", "dyor", "pump", "dump"]

/-- `self.positive_keywords` of `TrustworthinessAnalyzer.__init__`. -/
def positive_keywords : List String :=
  ["developer", "founder", "cto", "ceo", "engineer",
   "blockchain", "defi", "protocol", "security", "audit"]

/-- `sum(1 for keyword in keywords if keyword in text)`. -/
def count_keyword_hits (keywords : List String) (text : String) : Nat :=
  (keywords.filter (fun k => pyIn k text)).length

/-- Bio score of `_analyze_bio_content` (`analyzer.py` lines 197-231):
`0.3 * min(100, 2*len(bio)) + 0.7 * min(100, max(0, 20*pos - 15*susp))`. -/
def bio_score (bio : String) : ℚ :=
  let bio_lower := pyLower bio
  let length_score : ℚ := min 100 ((bio.length : ℚ) * 2)
  let suspicious_count := count_keyword_hits suspicious_keywords bio_lower
  let positive_count := count_keyword_hits positive_keywords bio_lower
  let keyword_score : ℚ :=
    min 100 (max 0 ((positive_count : ℚ) * 20 - (suspicious_count : ℚ) * 15))
  length_score * (0.3 : ℚ) + keyword_score * (0.7 : ℚ)

/-- The dictionary returned by `_analyze_engagement_metrics`. -/
structure EngagementResult where
  avg_likes : ℚ
  avg_retweets : ℚ
  avg_replies : ℚ
  avg_engagement : ℚ
  engagement_rate : ℚ
  engagement_score : ℚ
  deriving DecidableEq

/-- `_analyze_engagement_metrics` (`analyzer.py` lines 233-294): averages of
the public metrics over the recent posts, an engagement rate relative to the
follower count (0 when there are no followers), and a step score of the
rate.  An empty post list yields the all-zero result. -/
def analyze_engagement_metrics (followers_count : Nat)
    (recent_tweets : List RecentPost) : EngagementResult :=
  if recent_tweets = [] then ⟨0, 0, 0, 0, 0, 0⟩
  else
    let total_likes : ℚ := ((recent_tweets.map RecentPost.like_count).sum : ℚ)
    let total_retweets : ℚ := ((recent_tweets.map RecentPost.retweet_count).sum : ℚ)
    let total_replies : ℚ := ((recent_tweets.map RecentPost.reply_count).sum : ℚ)
    let n : ℚ := (recent_tweets.length : ℚ)
    let avg_likes := total_likes / n
    let avg_retweets := total_retweets / n
    let avg_replies := total_replies / n
    let avg_engagement := avg_likes + avg_retweets + avg_replies
    let engagement_rate :=
      if 0 < followers_count then avg_engagement / (followers_count : ℚ) * 100 else 0
    let score : ℚ :=
      if 5 ≤ engagement_rate then 100
      else if 2 ≤ engagement_rate then 80
      else if 1 ≤ engagement_rate then 60
      else if (0.5 : ℚ) ≤ engagement_rate then 40
      else if (0.1 : ℚ) ≤ engagement_rate then 20
      else 10
    ⟨avg_likes, avg_retweets, avg_replies, avg_engagement, engagement_rate, score⟩

/-- `solana_keywords` of `_analyze_tweet_content`. -/
def solana_keywords : List String :=
  ["solana", "sol", "$sol", "spl", "phantom", "serum"]

/-- `suspicious_patterns` of `_analyze_tweet_content` (the third entry is the
four-character mojibake literal present in the source file). -/
def suspicious_patterns : List String :=
  ["buy now", "urgent", "ðŸš¨", "last chance", "limited time"]

/-- The dictionary returned by `_analyze_tweet_content`. -/
structure ContentResult where
  tweet_count : Nat
  solana_mentions : Nat
  suspicious_content : Nat
  content_score : ℚ
  deriving DecidableEq

/-- `_analyze_tweet_content` (`analyzer.py` lines 296-344): counts posts
hitting the relevance and the suspicious keyword sets and combines
`min(100, mentions/total*100) - min(50, suspicious/total*100)` clamped
below at 0.  An empty post list yields the all-zero result. -/
def analyze_tweet_content (recent_tweets : List RecentPost) : ContentResult :=
  if recent_tweets = [] then ⟨0, 0, 0, 0⟩
  else
    let solana_mentions :=
      (recent_tweets.filter
        (fun t => solana_keywords.any (fun k => pyIn k (pyLower t.text)))).length
    let suspicious_content :=
      (recent_tweets.filter
        (fun t => suspicious_patterns.any (fun p => pyIn p (pyLower t.text)))).length
    let n : ℚ := (recent_tweets.length : ℚ)
    let relevance_score : ℚ := min 100 ((solana_mentions : ℚ) / n * 100)
    let suspicion_penalty : ℚ := min 50 ((suspicious_content : ℚ) / n * 100)
    let content_score : ℚ := max 0 (relevance_score - suspicion_penalty)
    ⟨recent_tweets.length, solana_mentions, suspicious_content, content_score⟩

/-- `TrustListChecker.check_trust_list` (`trust_check.py` lines 40-76): an
unavailable/empty trust list gives 0; direct case-insensitive membership
gives 100; otherwise the follower-connection count is step-scored.
`trust_connections` abstracts `_check_follower_connections`, an external
API sample. -/
def check_trust_list (trust_list : List String) (username : String)
    (trust_connections : Nat) : ℚ :=
  if trust_list = [] then 0
  else if pyLower username ∈ trust_list.map pyLower then 100
  else if 5 ≤ trust_connections then 100
  else if 3 ≤ trust_connections then 80
  else if 2 ≤ trust_connections then 60
  else if 1 ≤ trust_connections then 40
  else 0

/-- The sub-scores consumed by `RugGuardBot._calculate_final_score`. -/
structure Analysis where
  account_age_score : ℚ
  follower_ratio_score : ℚ
  bio_score : ℚ
  engagement_score : ℚ
  content_score : ℚ
  trust_list_score : ℚ
  deriving DecidableEq

/-- `TrustworthinessAnalyzer.analyze_user` (`analyzer.py` lines 50-97)
restricted to its scoring content: the analysis dictionary assembled from the
individual sub-analyses, with the trust-list score merged in by
`RugGuardBot.process_trigger`. -/
def analyze_user (s : AccountSnapshot) (recent_tweets : List RecentPost)
    (trust_score : ℚ) : Analysis :=
  { account_age_score := account_age_score s.account_age_days
    follower_ratio_score := follower_ratio_score s.followers_count s.following_count
    bio_score := bio_score s.bio
    engagement_score := (analyze_engagement_metrics s.followers_count recent_tweets).engagement_score
    content_score := (analyze_tweet_content recent_tweets).content_score
    trust_list_score := trust_score }

/-- `RugGuardBot._calculate_final_score` (`main.py` lines 114-129): the
weighted sum over the metric dictionary in its iteration order, then
`min(100, max(0, final_score))`. -/
def calculate_final_score (analysis : Analysis) : ℚ :=
  min 100 (max 0
    (analysis.account_age_score * (0.15 : ℚ) +
     analysis.follower_ratio_score * (0.20 : ℚ) +
     analysis.bio_score * (0.10 : ℚ) +
     analysis.engagement_score * (0.25 : ℚ) +
     analysis.content_score * (0.20 : ℚ) +
     analysis.trust_list_score * (0.10 : ℚ)))

/-- The four trust-level labels of `RugGuardBot._generate_response`. -/
inductive TrustLevel where
  | highly_trusted
  | moderately_trusted
  | caution_advised
  | high_risk
  deriving DecidableEq

/-- The label selection of `RugGuardBot._generate_response`
(`main.py` lines 131-158). -/
def trust_level (final_score : ℚ) : TrustLevel :=
  if 80 ≤ final_score then .highly_trusted
  else if 60 ≤ final_score then .moderately_trusted
  else if 40 ≤ final_score then .caution_advised
  else .high_risk

/-- `self.trigger_phrase` of `TriggerListener.__init__`
(`trigger_listener.py` lines 16-20). -/
def trigger_phrase : String := "riddle me this"

/-- An incoming post as seen by `TriggerListener.check_for_triggers`:
`in_reply_to_user_id` is `none` when the post is not a reply (the API field
is null). -/
structure Tweet where
  id : Nat
  author_id : Nat
  in_reply_to_user_id : Option Nat
  text : String
  deriving DecidableEq

/-- The per-tweet trigger condition of `TriggerListener.check_for_triggers`
(`trigger_listener.py` lines 77-118): the tweet must be a reply and its
lowercased text must contain the lowercased trigger phrase; the detected
target is the replied-to user id (`original_author_id`). -/
def matches_trigger (tweet : Tweet) : Option Nat :=
  match tweet.in_reply_to_user_id with
  | none => none
  | some uid =>
    if pyIn (pyLower trigger_phrase) (pyLower tweet.text) then some uid else none

/-- The loop body of `check_for_triggers` over a batch of search results:
one detected target per matching tweet. -/
def check_for_triggers (tweets : List Tweet) : List Nat :=
  tweets.filterMap matches_trigger

/-- The continuation marker `"... (1/2)"` appended by
`ReplyBot._truncate_message`. -/
def cont_marker : List Char := "... (1/2)".data

/-- Python `str.rfind(c)` restricted to a found/not-found `Option`: the
index of the last occurrence of `c` in `l`. -/
def rfind_char (l : List Char) (c : Char) : Option Nat :=
  match l with
  | [] => none
  | a :: as =>
    match rfind_char as c with
    | some j => some (j + 1)
    | none => if a = c then some 0 else none

/-- `ReplyBot._truncate_message` (`reply_bot.py` lines 84-100) on the
message's code points: messages of at most 280 characters pass through;
longer ones are cut to 270 characters, moved back to the last space when
that space sits past index 200 (Python `rfind` returns -1 when absent, so
`last_space > 200` covers the not-found case), and the marker is appended. -/
def truncate_message (message : List Char) : List Char :=
  if message.length ≤ 280 then message
  else
    let truncated := message.take 270
    let truncated2 :=
      match rfind_char truncated ' ' with
      | some last_space => if 200 < last_space then truncated.take last_space else truncated
      | none => truncated
    truncated2 ++ cont_marker

/-- The length validation of `ReplyBot.post_reply` (`reply_bot.py` lines
43-58): the message actually posted. -/
def post_reply_message (message : List Char) : List Char :=
  if 280 < message.length then truncate_message message else message

/-- Division as the Python runtime sees it: `none` is the
`ZeroDivisionError` case.  Used to state that the guarded divisions of the
analyzer never hit a zero denominator. -/
def cdiv (a b : ℚ) : Option ℚ := if b = 0 then none else some (a / b)

/-- `_analyze_follower_ratio` with its division checked: `none` would mean a
`ZeroDivisionError`. -/
def follower_ratio_checked (followers following : Nat) : Option ℚ :=
  if following = 0 then some (if 0 < followers then (followers : ℚ) else 1)
  else cdiv (followers : ℚ) (following : ℚ)

/-- `_analyze_engagement_metrics` with every division checked. -/
def analyze_engagement_metrics_checked (followers_count : Nat)
    (recent_tweets : List RecentPost) : Option EngagementResult :=
  if recent_tweets = [] then some ⟨0, 0, 0, 0, 0, 0⟩
  else do
    let total_likes : ℚ := ((recent_tweets.map RecentPost.like_count).sum : ℚ)
    let total_retweets : ℚ := ((recent_tweets.map RecentPost.retweet_count).sum : ℚ)
    let total_replies : ℚ := ((recent_tweets.map RecentPost.reply_count).sum : ℚ)
    let n : ℚ := (recent_tweets.length : ℚ)
    let avg_likes ← cdiv total_likes n
    let avg_retweets ← cdiv total_retweets n
    let avg_replies ← cdiv total_replies n
    let avg_engagement := avg_likes + avg_retweets + avg_replies
    let engagement_rate ←
      if 0 < followers_count then
        (cdiv avg_engagement (followers_count : ℚ)).map (· * 100)
      else some 0
    let score : ℚ :=
      if 5 ≤ engagement_rate then 100
      else if 2 ≤ engagement_rate then 80
      else if 1 ≤ engagement_rate then 60
      else if (0.5 : ℚ) ≤ engagement_rate then 40
      else if (0.1 : ℚ) ≤ engagement_rate then 20
      else 10
    some ⟨avg_likes, avg_retweets, avg_replies, avg_engagement, engagement_rate, score⟩

/-- `_analyze_tweet_content` with its divisions checked. -/
def analyze_tweet_content_checked (recent_tweets : List RecentPost) :
    Option ContentResult :=
  if recent_tweets = [] then some ⟨0, 0, 0, 0⟩
  else do
    let solana_mentions :=
      (recent_tweets.filter
        (fun t => solana_keywords.any (fun k => pyIn k (pyLower t.text)))).length
    let suspicious_content :=
      (recent_tweets.filter
        (fun t => suspicious_patterns.any (fun p => pyIn p (pyLower t.text)))).length
    let n : ℚ := (recent_tweets.length : ℚ)
    let relevance_raw ← cdiv (solana_mentions : ℚ) n
    let suspicion_raw ← cdiv (suspicious_content : ℚ) n
    let relevance_score : ℚ := min 100 (relevance_raw * 100)
    let suspicion_penalty : ℚ := min 50 (suspicion_raw * 100)
    some ⟨recent_tweets.length, solana_mentions, suspicious_content,
      max 0 (relevance_score - suspicion_penalty)⟩

/-- Which sub-analyses raised inside their `try`/`except` blocks.
`analyze_user` catches any exception of an individual `_analyze_*` call by
substituting that analysis's zero-default dictionary, and
`check_trust_list` returns 0 from its own handler. -/
structure SubFailures where
  age_failed : Bool
  ratio_failed : Bool
  bio_failed : Bool
  engagement_failed : Bool
  content_failed : Bool
  trust_failed : Bool
  deriving DecidableEq

/-- No sub-analysis failed. -/
def no_failures : SubFailures := ⟨false, false, false, false, false, false⟩

/-- `analyze_user` with the `except` branches made explicit: a failed
sub-analysis contributes its zero-default score instead of aborting the
whole analysis. -/
def analyze_user_degraded (s : AccountSnapshot) (recent_tweets : List RecentPost)
    (trust_score : ℚ) (fl : SubFailures) : Analysis :=
  { account_age_score := if fl.age_failed then 0 else account_age_score s.account_age_days
    follower_ratio_score :=
      if fl.ratio_failed then 0
      else follower_ratio_score s.followers_count s.following_count
    bio_score := if fl.bio_failed then 0 else bio_score s.bio
    engagement_score :=
      if fl.engagement_failed then 0
      else (analyze_engagement_metrics s.followers_count recent_tweets).engagement_score
    content_score :=
      if fl.content_failed then 0
      else (analyze_tweet_content recent_tweets).content_score
    trust_list_score := if fl.trust_failed then 0 else trust_score }

/-! ## Bound lemmas for the individual sub-scores -/

theorem account_age_score_bounds (d : Nat) :
    0 ≤ account_age_score d ∧ account_age_score d ≤ 100 := by
  unfold account_age_score
  split_ifs <;> norm_num

theorem follower_ratio_score_bounds (followers following : Nat) :
    0 ≤ follower_ratio_score followers following ∧
      follower_ratio_score followers following ≤ 100 := by
  unfold follower_ratio_score
  split_ifs <;> norm_num

theorem weighted_pair_bounds (x y : ℚ) (hx0 : 0 ≤ x) (hx : x ≤ 100)
    (hy0 : 0 ≤ y) (hy : y ≤ 100) :
    0 ≤ x * (0.3 : ℚ) + y * (0.7 : ℚ) ∧ x * (0.3 : ℚ) + y * (0.7 : ℚ) ≤ 100 := by
  constructor <;> nlinarith

theorem bio_score_bounds (bio : String) :
    0 ≤ bio_score bio ∧ bio_score bio ≤ 100 := by
  simp only [bio_score]
  exact weighted_pair_bounds _ _
    (le_min (by norm_num) (by positivity)) (min_le_left _ _)
    (le_min (by norm_num) (le_max_left _ _)) (min_le_left _ _)

theorem engagement_score_bounds (followers : Nat) (posts : List RecentPost) :
    0 ≤ (analyze_engagement_metrics followers posts).engagement_score ∧
      (analyze_engagement_metrics followers posts).engagement_score ≤ 100 := by
  rcases eq_or_ne posts [] with h | h
  · simp [analyze_engagement_metrics, h]
  · rw [analyze_engagement_metrics, if_neg h]
    simp only []
    split_ifs <;> norm_num

theorem content_score_bounds (posts : List RecentPost) :
    0 ≤ (analyze_tweet_content posts).content_score ∧
      (analyze_tweet_content posts).content_score ≤ 100 := by
  rw [analyze_tweet_content]
  split_ifs with h
  · norm_num
  · dsimp only
    constructor
    · exact le_max_left _ _
    · refine max_le (by norm_num) ?_
      have hpen : (0 : ℚ) ≤ min 50 (((posts.filter
          (fun t => suspicious_patterns.any (fun p => pyIn p (pyLower t.text)))).length : ℚ) /
            (posts.length : ℚ) * 100) :=
        le_min (by norm_num) (by positivity)
      have hrel : min 100 (((posts.filter
          (fun t => solana_keywords.any (fun k => pyIn k (pyLower t.text)))).length : ℚ) /
            (posts.length : ℚ) * 100) ≤ 100 := min_le_left _ _
      linarith

theorem check_trust_list_bounds (trust_list : List String) (username : String)
    (conns : Nat) :
    0 ≤ check_trust_list trust_list username conns ∧
      check_trust_list trust_list username conns ≤ 100 := by
  unfold check_trust_list
  split_ifs <;> norm_num

theorem calculate_final_score_bounds (a : Analysis) :
    0 ≤ calculate_final_score a ∧ calculate_final_score a ≤ 100 := by
  unfold calculate_final_score
  exact ⟨le_min (by norm_num) (le_max_left _ _), min_le_left _ _⟩

theorem trust_level_iff (q : ℚ) :
    (trust_level q = .highly_trusted ↔ 80 ≤ q) ∧
    (trust_level q = .moderately_trusted ↔ 60 ≤ q ∧ q < 80) ∧
    (trust_level q = .caution_advised ↔ 40 ≤ q ∧ q < 60) ∧
    (trust_level q = .high_risk ↔ q < 40) := by
  unfold trust_level
  split_ifs with h1 h2 h3 <;> push_neg at * <;>
    refine ⟨?_, ?_, ?_, ?_⟩ <;> simp <;>
    first
      | linarith
      | (constructor <;> linarith)
      | (rintro ⟨ha, hb⟩)
      | (intro ha; linarith)

/-! ## Claim theorems -/

/-- C1: for every well-formed account snapshot, every list of recent posts
and every trust-list score in [0,100], each sub-score of the assembled
analysis lies in [0,100] and the composite final score lies in [0,100]. -/
theorem c1_scores_bounded (s : AccountSnapshot) (posts : List RecentPost)
    (t : ℚ) (ht0 : 0 ≤ t) (ht1 : t ≤ 100) :
    (0 ≤ (analyze_user s posts t).account_age_score ∧
      (analyze_user s posts t).account_age_score ≤ 100) ∧
    (0 ≤ (analyze_user s posts t).follower_ratio_score ∧
      (analyze_user s posts t).follower_ratio_score ≤ 100) ∧
    (0 ≤ (analyze_user s posts t).bio_score ∧
      (analyze_user s posts t).bio_score ≤ 100) ∧
    (0 ≤ (analyze_user s posts t).engagement_score ∧
      (analyze_user s posts t).engagement_score ≤ 100) ∧
    (0 ≤ (analyze_user s posts t).content_score ∧
      (analyze_user s posts t).content_score ≤ 100) ∧
    (0 ≤ (analyze_user s posts t).trust_list_score ∧
      (analyze_user s posts t).trust_list_score ≤ 100) ∧
    (0 ≤ calculate_final_score (analyze_user s posts t) ∧
      calculate_final_score (analyze_user s posts t) ≤ 100) :=
  ⟨account_age_score_bounds _, follower_ratio_score_bounds _ _, bio_score_bounds _,
    engagement_score_bounds _ _, content_score_bounds _, ⟨ht0, ht1⟩,
    calculate_final_score_bounds _⟩

/-- Snapshot used to witness the claims on concrete inputs. -/
def sample_snapshot : AccountSnapshot :=
  ⟨"cryptodev", 800, 2847, 1523, "blockchain developer", false⟩

/-- Witness for C1 at a concrete snapshot, an empty post list and the
trust-list score 50. -/
theorem c1_scores_bounded_witness :
    ((0 : ℚ) ≤ 50 ∧ (50 : ℚ) ≤ 100) ∧
    ((0 ≤ (analyze_user sample_snapshot [] 50).account_age_score ∧
      (analyze_user sample_snapshot [] 50).account_age_score ≤ 100) ∧
    (0 ≤ (analyze_user sample_snapshot [] 50).follower_ratio_score ∧
      (analyze_user sample_snapshot [] 50).follower_ratio_score ≤ 100) ∧
    (0 ≤ (analyze_user sample_snapshot [] 50).bio_score ∧
      (analyze_user sample_snapshot [] 50).bio_score ≤ 100) ∧
    (0 ≤ (analyze_user sample_snapshot [] 50).engagement_score ∧
      (analyze_user sample_snapshot [] 50).engagement_score ≤ 100) ∧
    (0 ≤ (analyze_user sample_snapshot [] 50).content_score ∧
      (analyze_user sample_snapshot [] 50).content_score ≤ 100) ∧
    (0 ≤ (analyze_user sample_snapshot [] 50).trust_list_score ∧
      (analyze_user sample_snapshot [] 50).trust_list_score ≤ 100) ∧
    (0 ≤ calculate_final_score (analyze_user sample_snapshot [] 50) ∧
      calculate_final_score (analyze_user sample_snapshot [] 50) ≤ 100)) :=
  ⟨⟨by norm_num, by norm_num⟩,
    c1_scores_bounded sample_snapshot [] 50 (by norm_num) (by norm_num)⟩

/-- C3: the final score is the weighted sum of the six sub-scores with the
canonical weights, clamped to [0,100], and the trust-level label is
determined by the 80/60/40 thresholds. -/
theorem c3_final_score_weights_and_levels (a : Analysis) :
    calculate_final_score a =
      min 100 (max 0
        ((0.15 : ℚ) * a.account_age_score + (0.20 : ℚ) * a.follower_ratio_score +
         (0.10 : ℚ) * a.bio_score + (0.25 : ℚ) * a.engagement_score +
         (0.20 : ℚ) * a.content_score + (0.10 : ℚ) * a.trust_list_score)) ∧
    (trust_level (calculate_final_score a) = .highly_trusted ↔
      80 ≤ calculate_final_score a) ∧
    (trust_level (calculate_final_score a) = .moderately_trusted ↔
      60 ≤ calculate_final_score a ∧ calculate_final_score a < 80) ∧
    (trust_level (calculate_final_score a) = .caution_advised ↔
      40 ≤ calculate_final_score a ∧ calculate_final_score a < 60) ∧
    (trust_level (calculate_final_score a) = .high_risk ↔
      calculate_final_score a < 40) := by
  refine ⟨?_, trust_level_iff _⟩
  unfold calculate_final_score
  ring_nf

/-- C5: with `following_count = 0` the ratio analysis never divides: the
ratio is the follower count when positive and 1 otherwise, so the all-zero
snapshot gets ratio 1 and the 40-point tier. -/
theorem c5_zero_following_no_division (s : AccountSnapshot)
    (h : s.following_count = 0) :
    (s.followers_count = 0 →
      follower_ratio s.followers_count s.following_count = 1 ∧
      follower_ratio_score s.followers_count s.following_count = 40) ∧
    follower_ratio s.followers_count s.following_count =
      (if 0 < s.followers_count then (s.followers_count : ℚ) else 1) ∧
    follower_ratio_checked s.followers_count s.following_count =
      some (follower_ratio s.followers_count s.following_count) := by
  rw [h]
  refine ⟨?_, ?_, ?_⟩
  · intro h0
    rw [h0]
    exact ⟨by norm_num [follower_ratio],
      by norm_num [follower_ratio_score, follower_ratio]⟩
  · rw [follower_ratio, if_pos rfl]
  · rw [follower_ratio_checked, if_pos rfl, follower_ratio, if_pos rfl]

/-- Witness for C5 at the all-zero snapshot. -/
theorem c5_zero_following_no_division_witness :
    ((⟨"newuser", 0, 0, 0, "", false⟩ : AccountSnapshot).following_count = 0) ∧
    follower_ratio 0 0 = 1 ∧ follower_ratio_score 0 0 = 40 :=
  have h := c5_zero_following_no_division ⟨"newuser", 0, 0, 0, "", false⟩ rfl
  ⟨rfl, (h.1 rfl).1, (h.1 rfl).2⟩

/-- C6: case-insensitive membership in the trust list short-circuits
`check_trust_list` to 100, whatever the follower-connection count is. -/
theorem c6_trust_list_membership (trust_list : List String) (username : String)
    (conns : Nat) (h : pyLower username ∈ trust_list.map pyLower) :
    check_trust_list trust_list username conns = 100 := by
  have hne : trust_list ≠ [] := by
    rintro rfl
    simp at h
  rw [check_trust_list, if_neg hne, if_pos h]

/-- Witness for C6: a lowercase query against a differently-cased entry,
with zero follower connections. -/
theorem c6_trust_list_membership_witness :
    pyLower "solanalegend" ∈ (["SolanaLegend"].map pyLower) ∧
    check_trust_list ["SolanaLegend"] "solanalegend" 0 = 100 :=
  ⟨by decide, c6_trust_list_membership ["SolanaLegend"] "solanalegend" 0 (by decide)⟩

/-- C9: the account-age score is monotone non-decreasing in the age in
days and follows the documented step function. -/
theorem c9_age_score_monotone :
    (∀ a b : Nat, a ≤ b → account_age_score a ≤ account_age_score b) ∧
    (∀ d : Nat, account_age_score d =
      if 730 ≤ d then 100
      else if 365 ≤ d then 80
      else if 180 ≤ d then 60
      else if 90 ≤ d then 40
      else if 30 ≤ d then 20
      else 10) := by
  constructor
  · intro a b hab
    unfold account_age_score
    split_ifs <;> try norm_num
    all_goals omega
  · intro d
    norm_num [account_age_score]

/-- Witness for C9: the monotonicity applied across the 365-day tier
boundary. -/
theorem c9_age_score_monotone_witness :
    (100 : Nat) ≤ 400 ∧ account_age_score 100 ≤ account_age_score 400 :=
  ⟨by norm_num, c9_age_score_monotone.1 100 400 (by norm_num)⟩

theorem trust_level_total (q : ℚ) :
    trust_level q = .highly_trusted ∨ trust_level q = .moderately_trusted ∨
    trust_level q = .caution_advised ∨ trust_level q = .high_risk := by
  unfold trust_level
  split_ifs <;> simp

theorem follower_ratio_checked_eq (followers following : Nat) :
    follower_ratio_checked followers following =
      some (follower_ratio followers following) := by
  unfold follower_ratio_checked follower_ratio cdiv
  rcases eq_or_ne following 0 with h | h
  · simp [h]
  · have hq : ((following : ℚ)) ≠ 0 := Nat.cast_ne_zero.mpr h
    simp [h, hq]

theorem analyze_engagement_metrics_checked_eq (followers : Nat)
    (posts : List RecentPost) :
    analyze_engagement_metrics_checked followers posts =
      some (analyze_engagement_metrics followers posts) := by
  rcases eq_or_ne posts [] with h | h
  · simp [analyze_engagement_metrics_checked, analyze_engagement_metrics, h]
  · have hn : ((posts.length : ℚ)) ≠ 0 := by
      have : posts.length ≠ 0 := by
        simpa [List.length_eq_zero] using h
      exact_mod_cast Nat.cast_ne_zero.mpr this
    rw [analyze_engagement_metrics_checked, if_neg h,
      analyze_engagement_metrics, if_neg h]
    rcases Nat.eq_zero_or_pos followers with hf | hf
    · simp [cdiv, hn, hf, Option.bind]
    · have hfq : ((followers : ℚ)) ≠ 0 :=
        Nat.cast_ne_zero.mpr (Nat.pos_iff_ne_zero.mp hf)
      simp [cdiv, hn, hf, hfq, Option.bind]

theorem analyze_tweet_content_checked_eq (posts : List RecentPost) :
    analyze_tweet_content_checked posts = some (analyze_tweet_content posts) := by
  rcases eq_or_ne posts [] with h | h
  · simp [analyze_tweet_content_checked, analyze_tweet_content, h]
  · have hn : ((posts.length : ℚ)) ≠ 0 := by
      have : posts.length ≠ 0 := by
        simpa [List.length_eq_zero] using h
      exact_mod_cast Nat.cast_ne_zero.mpr this
    rw [analyze_tweet_content_checked, if_neg h, analyze_tweet_content, if_neg h]
    simp [cdiv, hn, Option.bind]

theorem analyze_user_degraded_bounds (s : AccountSnapshot)
    (posts : List RecentPost) (t : ℚ) (fl : SubFailures) :
    0 ≤ calculate_final_score (analyze_user_degraded s posts t fl) ∧
      calculate_final_score (analyze_user_degraded s posts t fl) ≤ 100 :=
  calculate_final_score_bounds _

/-- C2: the scorer is total.  For any well-formed snapshot, post list and
trust-list inputs the pipeline produces a final score in [0,100] and one of
the four trust-level labels; each guarded division has a nonzero
denominator (the division-checked analyzers return `some`); and a failing
sub-analysis degrades to its zero default (still yielding a score in range)
instead of aborting. -/
theorem c2_scorer_total (s : AccountSnapshot) (posts : List RecentPost)
    (trust_list : List String) (username : String) (conns : Nat)
    (fl : SubFailures) :
    (0 ≤ calculate_final_score
        (analyze_user s posts (check_trust_list trust_list username conns)) ∧
      calculate_final_score
        (analyze_user s posts (check_trust_list trust_list username conns)) ≤ 100) ∧
    (trust_level (calculate_final_score
        (analyze_user s posts (check_trust_list trust_list username conns))) =
          .highly_trusted ∨
      trust_level (calculate_final_score
        (analyze_user s posts (check_trust_list trust_list username conns))) =
          .moderately_trusted ∨
      trust_level (calculate_final_score
        (analyze_user s posts (check_trust_list trust_list username conns))) =
          .caution_advised ∨
      trust_level (calculate_final_score
        (analyze_user s posts (check_trust_list trust_list username conns))) =
          .high_risk) ∧
    follower_ratio_checked s.followers_count s.following_count =
      some (follower_ratio s.followers_count s.following_count) ∧
    analyze_engagement_metrics_checked s.followers_count posts =
      some (analyze_engagement_metrics s.followers_count posts) ∧
    analyze_tweet_content_checked posts = some (analyze_tweet_content posts) ∧
    analyze_user_degraded s posts (check_trust_list trust_list username conns)
        no_failures =
      analyze_user s posts (check_trust_list trust_list username conns) ∧
    (0 ≤ calculate_final_score (analyze_user_degraded s posts
        (check_trust_list trust_list username conns) fl) ∧
      calculate_final_score (analyze_user_degraded s posts
        (check_trust_list trust_list username conns) fl) ≤ 100) := by
  refine ⟨calculate_final_score_bounds _, trust_level_total _,
    follower_ratio_checked_eq _ _, analyze_engagement_metrics_checked_eq _ _,
    analyze_tweet_content_checked_eq _, ?_, analyze_user_degraded_bounds _ _ _ _⟩
  simp [analyze_user_degraded, analyze_user, no_failures]

/-- C7: trigger detection fires exactly on replies whose lowercased text
contains the lowercased trigger phrase, targeting the replied-to user; an
identical non-reply is ignored and matching is case-insensitive. -/
theorem c7_trigger_detection :
    (∀ (t : Tweet) (uid : Nat), matches_trigger t = some uid ↔
      (t.in_reply_to_user_id = some uid ∧
        pyIn (pyLower trigger_phrase) (pyLower t.text) = true)) ∧
    matches_trigger ⟨901, 7, some 42, "yo RIDDLE ME THIS please"⟩ = some 42 ∧
    matches_trigger ⟨902, 7, none, "yo RIDDLE ME THIS please"⟩ = none ∧
    check_for_triggers
      [⟨901, 7, some 42, "yo RIDDLE ME THIS please"⟩,
       ⟨902, 7, none, "yo RIDDLE ME THIS please"⟩] = [42] := by
  refine ⟨?_, by decide, by decide, by decide⟩
  intro t uid
  rcases t with ⟨i, a, rto, tx⟩
  cases rto with
  | none => simp [matches_trigger]
  | some u =>
    simp only [matches_trigger]
    split_ifs with hc
    · simp [hc]
    · simp [hc]

/-- C10: the engagement score is 0 exactly on an empty post list; any
non-empty list scores at least the 10-point floor tier, and in particular a
zero-follower account with posts gets rate 0 and score 10. -/
theorem c10_engagement_floor (followers : Nat) (posts : List RecentPost) :
    ((analyze_engagement_metrics followers posts).engagement_score = 0 ↔
      posts = []) ∧
    (posts ≠ [] →
      10 ≤ (analyze_engagement_metrics followers posts).engagement_score) ∧
    (posts ≠ [] → followers = 0 →
      (analyze_engagement_metrics followers posts).engagement_rate = 0 ∧
      (analyze_engagement_metrics followers posts).engagement_score = 10) := by
  rcases eq_or_ne posts [] with h | h
  · simp [analyze_engagement_metrics, h]
  · rw [analyze_engagement_metrics, if_neg h]
    simp only []
    refine ⟨?_, ?_, ?_⟩
    · simp only [h, iff_false]
      split_ifs <;> norm_num
    · intro _
      split_ifs <;> norm_num
    · rintro _ rfl
      simp only [lt_irrefl, if_false]
      norm_num

/-- Witness for C10 at a zero-follower account with one post. -/
theorem c10_engagement_floor_witness :
    ([(⟨"gm", 5, 1, 0⟩ : RecentPost)] ≠ []) ∧
    10 ≤ (analyze_engagement_metrics 0 [⟨"gm", 5, 1, 0⟩]).engagement_score ∧
    (analyze_engagement_metrics 0 [⟨"gm", 5, 1, 0⟩]).engagement_rate = 0 ∧
    (analyze_engagement_metrics 0 [⟨"gm", 5, 1, 0⟩]).engagement_score = 10 :=
  have h := c10_engagement_floor 0 [⟨"gm", 5, 1, 0⟩]
  ⟨by simp, h.2.1 (by simp), (h.2.2 (by simp) rfl).1, (h.2.2 (by simp) rfl).2⟩

/-- The ten recent posts of the §8 scenario: each carries 50 combined
likes, retweets and replies. -/
def scenario_post : RecentPost := ⟨"building on solana", 40, 7, 3⟩

/-- Ten copies of the scenario post. -/
def scenario_posts : List RecentPost :=
  [scenario_post, scenario_post, scenario_post, scenario_post, scenario_post,
   scenario_post, scenario_post, scenario_post, scenario_post, scenario_post]

/-- C4 counterexample: on the scenario inputs (age 800 d, 2847 followers,
1523 following, ten posts of 50 combined engagements) the claimed triple
with `follower_ratio_score = 60` is false: the ratio 2847/1523 ≈ 1.87 is
below 2, so the code assigns the ≥1 tier score 40. -/
theorem c4_scenario_counterexample :
    ¬ (account_age_score 800 = 100 ∧ follower_ratio_score 2847 1523 = 60 ∧
        (analyze_engagement_metrics 2847 scenario_posts).engagement_score = 60) := by
  rintro ⟨-, h, -⟩
  have h40 : follower_ratio_score 2847 1523 = 40 := by
    norm_num [follower_ratio_score, follower_ratio]
  rw [h40] at h
  norm_num at h

/-- C4 amended: on the scenario inputs the scorer yields age score 100,
ratio 2847/1523 with ratio score 40 (the ≥1 tier), and engagement rate
5000/2847 ≈ 1.76% with engagement score 60. -/
theorem c4_scenario_scores :
    account_age_score 800 = 100 ∧
    follower_ratio 2847 1523 = 2847 / 1523 ∧
    follower_ratio_score 2847 1523 = 40 ∧
    (analyze_engagement_metrics 2847 scenario_posts).engagement_rate = 5000 / 2847 ∧
    (analyze_engagement_metrics 2847 scenario_posts).engagement_score = 60 := by
  refine ⟨by norm_num [account_age_score], by norm_num [follower_ratio],
    by norm_num [follower_ratio_score, follower_ratio], ?_, ?_⟩ <;>
  · rw [analyze_engagement_metrics, if_neg (by simp [scenario_posts])]
    norm_num [scenario_posts, scenario_post]

theorem rfind_char_get {l : List Char} {c : Char} {i : Nat}
    (h : rfind_char l c = some i) : l.get? i = some c := by
  induction l generalizing i with
  | nil => simp [rfind_char] at h
  | cons a as ih =>
    rw [rfind_char] at h
    cases hr : rfind_char as c with
    | some j =>
      simp only [hr] at h
      obtain rfl : j + 1 = i := by injection h
      simpa using ih hr
    | none =>
      simp only [hr] at h
      split_ifs at h with ha
      obtain rfl : (0 : Nat) = i := by injection h
      simp [ha]

theorem rfind_char_lt {l : List Char} {c : Char} {i : Nat}
    (h : rfind_char l c = some i) : i < l.length := by
  by_contra hlt
  have hg := rfind_char_get h
  rw [List.get?_eq_none.mpr (not_lt.mp hlt)] at hg
  exact Option.noConfusion hg

theorem rfind_char_none {l : List Char} {c : Char}
    (h : rfind_char l c = none) : ∀ j, l.get? j ≠ some c := by
  induction l with
  | nil =>
    intro j
    simp
  | cons a as ih =>
    rw [rfind_char] at h
    cases hr : rfind_char as c with
    | some j0 => simp [hr] at h
    | none =>
      simp only [hr] at h
      split_ifs at h with ha
      intro j
      cases j with
      | zero => simp [ha]
      | succ j => simpa using ih hr j

theorem rfind_char_last {l : List Char} {c : Char} {i : Nat}
    (h : rfind_char l c = some i) : ∀ j, i < j → l.get? j ≠ some c := by
  induction l generalizing i with
  | nil => simp [rfind_char] at h
  | cons a as ih =>
    rw [rfind_char] at h
    cases hr : rfind_char as c with
    | some j0 =>
      simp only [hr] at h
      obtain rfl : j0 + 1 = i := by injection h
      intro j hj
      cases j with
      | zero => omega
      | succ j => simpa using ih hr j (by omega)
    | none =>
      simp only [hr] at h
      split_ifs at h with ha
      obtain rfl : (0 : Nat) = i := by injection h
      intro j hj
      cases j with
      | zero => omega
      | succ j => simpa using rfind_char_none hr j

/-- C8 counterexample: a 310-character message with no space at all is
still truncated (to 279 characters with the marker), but the cut cannot
fall at a word boundary: no kept-prefix length `k` has a space right after
it in the original message. -/
theorem c8_truncation_counterexample :
    280 < (List.replicate 310 'a').length ∧
    (truncate_message (List.replicate 310 'a')).length ≤ 280 ∧
    ¬ ∃ k, truncate_message (List.replicate 310 'a') =
        (List.replicate 310 'a').take k ++ cont_marker ∧
        (List.replicate 310 'a').get? k = some ' ' := by
  refine ⟨by simp, ?_, ?_⟩
  · decide
  · rintro ⟨k, -, hk⟩
    have ha := List.eq_of_mem_replicate (List.get?_mem hk)
    exact absurd ha (by decide)

/-- C8 amended: messages of at most 280 characters pass through unchanged;
a longer message is truncated to at most 280 characters with the
continuation marker appended, and the cut falls at the last space of the
first 270 characters when that space sits past index 200 — otherwise the
cut is at exactly 270 characters (in particular mid-word when no such
space exists). -/
theorem c8_truncation_amended :
    (∀ message : List Char, message.length ≤ 280 →
      truncate_message message = message) ∧
    (∀ message : List Char, message.length ≤ 280 →
      post_reply_message message = message) ∧
    (∀ message : List Char, 280 < message.length →
      (truncate_message message).length ≤ 280 ∧
      ((∃ k, 200 < k ∧ k < 270 ∧ message.get? k = some ' ' ∧
          (∀ j, k < j → j < 270 → message.get? j ≠ some ' ') ∧
          truncate_message message = message.take k ++ cont_marker) ∨
        ((∀ j, 200 < j → j < 270 → message.get? j ≠ some ' ') ∧
          truncate_message message = message.take 270 ++ cont_marker))) := by
  have hcm : cont_marker.length = 9 := by decide
  refine ⟨?_, ?_, ?_⟩
  · intro m hm
    rw [truncate_message, if_pos hm]
  · intro m hm
    rw [post_reply_message, if_neg (by omega)]
  · intro m hm
    rw [truncate_message, if_neg (by omega)]
    simp only []
    have hlen270 : (m.take 270).length = 270 := by
      rw [List.length_take]
      omega
    cases hr : rfind_char (m.take 270) ' ' with
    | none =>
      -- no space occurs anywhere in the first 270 characters
      have hnone : ∀ j, 200 < j → j < 270 → m.get? j ≠ some ' ' := by
        intro j _ hj270
        have hn := rfind_char_none hr j
        rwa [List.get?_take hj270] at hn
      simp only [hr]
      refine ⟨by simp [List.length_append, hlen270, hcm], Or.inr ⟨hnone, ?_⟩⟩
      trivial
    | some k =>
      have hk : k < 270 := by
        have hb := rfind_char_lt hr
        omega
      have hget : m.get? k = some ' ' := by
        have hg := rfind_char_get hr
        rwa [List.get?_take hk] at hg
      -- no space occurs after position k within the first 270 characters
      have hlast : ∀ j, k < j → j < 270 → m.get? j ≠ some ' ' := by
        intro j hj hj270
        have hl := rfind_char_last hr j hj
        rwa [List.get?_take hj270] at hl
      simp only [hr]
      by_cases h200 : 200 < k
      · rw [if_pos h200]
        have htk : ((m.take 270).take k).length = k := by
          rw [List.length_take, hlen270]
          omega
      -- the kept prefix is the first k characters of the original message
        have hpref : (m.take 270).take k = m.take k := by
          rw [List.take_take]
          congr 1
          omega
        constructor
        · rw [List.length_append, htk, hcm]
          omega
        · left
          exact ⟨k, h200, hk, hget, hlast, by rw [hpref]⟩
      · rw [if_neg h200]
        refine ⟨by simp [List.length_append, hlen270, hcm], Or.inr ⟨?_, ?_⟩⟩
        · intro j hj200 hj270
          exact hlast j (by omega) hj270
        · trivial

/-- A 311-character message whose only space sits at index 250, past the
200-character threshold of `_truncate_message`. -/
def wb_message : List Char :=
  List.replicate 250 'a' ++ ' ' :: List.replicate 60 'b'

/-- Witness for C8: a short message passes through both paths unchanged; a
space-bearing 311-character message is truncated to at most 280 characters,
and its cut falls exactly at the space at index 250. -/
theorem c8_truncation_amended_witness :
    ("gm frens".data.length ≤ 280 ∧
      truncate_message "gm frens".data = "gm frens".data ∧
      post_reply_message "gm frens".data = "gm frens".data) ∧
    (280 < wb_message.length ∧
      (truncate_message wb_message).length ≤ 280) ∧
    truncate_message wb_message = wb_message.take 250 ++ cont_marker :=
  ⟨⟨by decide, c8_truncation_amended.1 "gm frens".data (by decide),
      c8_truncation_amended.2.1 "gm frens".data (by decide)⟩,
   ⟨by simp [wb_message],
      (c8_truncation_amended.2.2 wb_message (by simp [wb_message])).1⟩,
   by decide⟩

end SolanaGuardian
